import Mathlib

/-!
Verification of the Hackathon air-quality forecast service: a shallow
embedding of the forecast gateway (Express backend) and of the polling
coordinator in the React frontend, with theorems about the request
validation schema, the status-check handlers and the polling state.
-/

namespace Hackathon

/-! ### JavaScript values

JSON/JS values as they reach the gateway handlers.  JS numbers are
modelled as rationals (every literal in the repository is a finite
decimal).  `jsUndefined` stands for the value of an absent object key. -/

inductive JsVal where
  | num (q : ℚ)
  | str (s : String)
  | boolean (b : Bool)
  | jsNull
  | jsUndefined
deriving DecidableEq, Repr

/-- Digits check for a character list. -/
def allDigits (l : List Char) : Bool :=
  l.all Char.isDigit

/-- Numeric value of a digit list, most significant first. -/
def natOfDigits (l : List Char) : Nat :=
  l.foldl (fun n c => 10 * n + (c.toNat - 48)) 0

/-- Time-of-day suffix of an ISO-8601 date-time string: either nothing or
a block of the form THH:MM:SSZ with in-range hour, minute and second. -/
def validIsoTimeSuffix : List Char → Bool
  | [] => true
  | 'T' :: h1 :: h2 :: ':' :: m1 :: m2 :: ':' :: s1 :: s2 :: ['Z'] =>
      allDigits [h1, h2, m1, m2, s1, s2] &&
      natOfDigits [h1, h2] < 24 &&
      natOfDigits [m1, m2] < 60 &&
      natOfDigits [s1, s2] < 60
  | _ => false

/-- Validity of an ISO-8601 date or date-time string under the JS `Date`
constructor, restricted to the YYYY-MM-DD and YYYY-MM-DDTHH:MM:SSZ forms
used throughout the repository. -/
def isValidIsoDateString (s : String) : Bool :=
  match s.toList with
  | y1 :: y2 :: y3 :: y4 :: '-' :: m1 :: m2 :: '-' :: d1 :: d2 :: rest =>
      allDigits [y1, y2, y3, y4, m1, m2, d1, d2] &&
      1 ≤ natOfDigits [m1, m2] && natOfDigits [m1, m2] ≤ 12 &&
      1 ≤ natOfDigits [d1, d2] && natOfDigits [d1, d2] ≤ 31 &&
      validIsoTimeSuffix rest
  | _ => false

/-! ### The request schema

From backend/src/schemas/requests (the `requestForecastRequest` zod
object): long and lat must satisfy z.number(), date must satisfy
z.coerce.date(), that is, `new Date(value)` must be a valid instant. -/

/-- z.number(): accepts exactly a JS number. -/
def zNumberOk : JsVal → Bool
  | .num _ => true
  | _ => false

/-- z.coerce.date(): `new Date(value)` is a valid instant.  Finite numbers
inside the representable millisecond range, booleans and null coerce to
valid dates; undefined never does; strings follow the ISO check above. -/
def jsDateCoercionOk : JsVal → Bool
  | .num q => -8640000000000000 ≤ q && q ≤ 8640000000000000
  | .str s => isValidIsoDateString s
  | .boolean _ => true
  | .jsNull => true
  | .jsUndefined => false

/-- The JSON body of POST /forecast/request-forecast: the three keys the
schema looks at, `none` standing for an absent key. -/
structure ReqBody where
  long : Option JsVal
  lat : Option JsVal
  date : Option JsVal
deriving DecidableEq, Repr

/-- In JS, reading an absent key yields undefined. -/
def fieldVal : Option JsVal → JsVal
  | some v => v
  | none => .jsUndefined

/-- The zod schema check of `requestForecastRequest`: long is a number,
lat is a number and date coerces to a valid date.  No range check of the
coordinates appears in the schema. -/
def requestForecastRequestCheck (b : ReqBody) : Bool :=
  zNumberOk (fieldVal b.long) && zNumberOk (fieldVal b.lat) &&
    jsDateCoercionOk (fieldVal b.date)

/-- The validation invariant as the specification words it (for comparison
with the schema actually in the code): longitude in [-180, 180], latitude
in [-90, 90], date parseable. -/
def specRangeInvariantOk (b : ReqBody) : Bool :=
  (match fieldVal b.long with
   | .num q => decide ((-180 : ℚ) ≤ q) && decide (q ≤ (180 : ℚ))
   | _ => false) &&
  (match fieldVal b.lat with
   | .num q => decide ((-90 : ℚ) ≤ q) && decide (q ≤ (90 : ℚ))
   | _ => false) &&
  jsDateCoercionOk (fieldVal b.date)

/-! ### Forecast result construction

The raw downstream reading: every field the two `createForecastResponse`
versions ever read, each possibly absent. -/

structure RawReading where
  datetime : Option JsVal := none
  aqi : Option JsVal := none
  category : Option JsVal := none
  dominant_pollutant : Option JsVal := none
  pm25 : Option JsVal := none
  pm10 : Option JsVal := none
  no2 : Option JsVal := none
  o3 : Option JsVal := none
  co : Option JsVal := none
  temperature_c : Option JsVal := none
  humidity_percent : Option JsVal := none
  wind_speed_mps : Option JsVal := none
  wind_direction_deg : Option JsVal := none
  precipitation_mm : Option JsVal := none
deriving DecidableEq, Repr

structure CurrentPollutants where
  pm25 : Option JsVal
  pm10 : Option JsVal
  no2 : Option JsVal
  o3 : Option JsVal
  co : Option JsVal
deriving DecidableEq, Repr

structure CurrentWeather where
  temperature_c : Option JsVal
  humidity_percent : Option JsVal
  wind_speed_mps : Option JsVal
  wind_direction_deg : Option JsVal
  precipitation_mm : Option JsVal
deriving DecidableEq, Repr

structure CurrentConditions where
  aqi : Option JsVal
  category : Option JsVal
  dominant_pollutant : Option JsVal
  pollutants : CurrentPollutants
  weather : CurrentWeather
deriving DecidableEq, Repr

structure PointPollutants where
  pm25 : Option JsVal
  o3 : Option JsVal
  no2 : Option JsVal
deriving DecidableEq, Repr

structure PointWeather where
  temperature_c : Option JsVal
  humidity_percent : Option JsVal
  wind_speed_mps : Option JsVal
deriving DecidableEq, Repr

structure ForecastPoint where
  datetime : Option JsVal
  aqi : Option JsVal
  category : Option JsVal
  dominant_pollutant : Option JsVal
  pollutants : PointPollutants
  weather : PointWeather
deriving DecidableEq, Repr

structure ForecastResponse where
  current_conditions : CurrentConditions
  forecast : List ForecastPoint
deriving DecidableEq, Repr

/-- The full-shape `createForecastResponse` of the forecast controller:
copies each field of the raw current reading and of every raw forecast
item into the public response shape, verbatim. -/
def createForecastResponse (current : RawReading) (forecastList : List RawReading) :
    ForecastResponse :=
  { current_conditions :=
      { aqi := current.aqi
        category := current.category
        dominant_pollutant := current.dominant_pollutant
        pollutants :=
          { pm25 := current.pm25
            pm10 := current.pm10
            no2 := current.no2
            o3 := current.o3
            co := current.co }
        weather :=
          { temperature_c := current.temperature_c
            humidity_percent := current.humidity_percent
            wind_speed_mps := current.wind_speed_mps
            wind_direction_deg := current.wind_direction_deg
            precipitation_mm := current.precipitation_mm } }
    forecast := forecastList.map (fun item =>
      { datetime := item.datetime
        aqi := item.aqi
        category := item.category
        dominant_pollutant := item.dominant_pollutant
        pollutants :=
          { pm25 := item.pm25
            o3 := item.o3
            no2 := item.no2 }
        weather :=
          { temperature_c := item.temperature_c
            humidity_percent := item.humidity_percent
            wind_speed_mps := item.wind_speed_mps } }) }

/-! The slim `createForecastResponse` version used by the current
check-forecast-request handler: only aqi for current conditions, only
datetime and aqi per forecast point. -/

structure CurrentConditionsV2 where
  aqi : Option JsVal
deriving DecidableEq, Repr

structure ForecastPointV2 where
  datetime : Option JsVal
  aqi : Option JsVal
deriving DecidableEq, Repr

structure ForecastResponseV2 where
  current_conditions : CurrentConditionsV2
  forecast : List ForecastPointV2
deriving DecidableEq, Repr

/-- The slim `createForecastResponse` of the current controller version. -/
def createForecastResponseV2 (current : RawReading) (forecastList : List RawReading) :
    ForecastResponseV2 :=
  { current_conditions := { aqi := current.aqi }
    forecast := forecastList.map (fun item =>
      { datetime := item.datetime, aqi := item.aqi }) }

/-! ### The gateway handlers -/

/-- A response body, as the union of the shapes any handler sends. -/
inductive RespBody where
  | accepted (requestId : String) (message : String)
  | validationFailure (failedFields : List String)
  | processing (message : String)
  | forecastV2 (r : ForecastResponseV2)
  | internalError (error : String)
deriving DecidableEq, Repr

structure HttpResp where
  status : Nat
  body : RespBody
deriving DecidableEq, Repr

/-- The requestForecast handler of the forecast controller: ignores the
(already validated) body and answers 202 with the mock process id. -/
def requestForecast (_b : ReqBody) : HttpResp :=
  { status := 202
    body := .accepted "12345" "Forecast request received. Use this ID to check status." }

/-- The schema fields that fail on a given body, for the validation
payload of the middleware. -/
def schemaFailedFields (b : ReqBody) : List String :=
  (if zNumberOk (fieldVal b.long) then [] else ["long"]) ++
  (if zNumberOk (fieldVal b.lat) then [] else ["lat"]) ++
  (if jsDateCoercionOk (fieldVal b.date) then [] else ["date"])

/-- Modelled from the spec: the `validateData` middleware (the file
backend/src/middleware/validationMiddleware is not among the repository
files; only the schema and the route wiring are).  Per the spec it
rejects with HTTP 400 and a payload naming the failing fields exactly
when the schema fails, and otherwise passes the request to the handler
unchanged.  Composed with `requestForecast`, this is the full route
POST /forecast/request-forecast. -/
def requestForecastRoute (b : ReqBody) : HttpResp :=
  if requestForecastRequestCheck b then requestForecast b
  else { status := 400, body := .validationFailure (schemaFailedFields b) }

/-- The hard-coded completion flag of the checkForecastRequest handler. -/
def checkFinished : Bool := true

/-- The mock current reading built inside checkForecastRequest. -/
def mockCurrent : RawReading :=
  { aqi := some (.num 82) }

/-- The mock forecast list built inside checkForecastRequest. -/
def mockForecastList : List RawReading :=
  [ { datetime := some (.str "2025-10-06T15:00:00Z"), aqi := some (.num 90) },
    { datetime := some (.str "2025-10-07T15:00:00Z"), aqi := some (.num 86) } ]

/-- The checkForecastRequest handler of the forecast controller: the
destructuring of requestId is commented out in the source, so the body
is unused; `finished` is the constant above; the finished branch answers
200 with the response built by the slim createForecastResponse, the
other branch 202 with an advisory message. -/
def checkForecastRequest (_requestId : Option JsVal) : HttpResp :=
  if checkFinished then
    { status := 200
      body := .forecastV2 (createForecastResponseV2 mockCurrent mockForecastList) }
  else
    { status := 202, body := .processing "Forecast is still being processed" }

/-! ### Frontend status classification

From checkForecastStatus in MapView.jsx, together with the default axios
resolution policy (a response with code in [200, 300) resolves, anything
else rejects into the catch block). -/

inductive JobStatus where
  | Pending
  | Ready
  | Failed
deriving DecidableEq, Repr

/-- Default axios resolution: 2xx responses resolve, others reject. -/
def axiosResolves (status : Nat) : Bool :=
  200 ≤ status && status < 300

/-- The job status checkForecastStatus derives from one response code:
a resolved 200 takes the Ready branch, a resolved 202 the Pending branch,
any other resolved code falls through both branches (no status derived),
and a rejected code lands in the catch block, the Failed outcome. -/
def deriveJobStatus (status : Nat) : Option JobStatus :=
  if axiosResolves status then
    if status == 200 then some .Ready
    else if status == 202 then some .Pending
    else none
  else some .Failed

/-- The classification the specification words claim: 202 Pending,
200 Ready, anything else Failed (total). -/
def specJobStatusOfCode (status : Nat) : JobStatus :=
  if status == 202 then .Pending
  else if status == 200 then .Ready
  else .Failed

/-! ### The polling coordinator state

An event model of the MapView polling logic.  The state carries the JS
timer registry (live setInterval entries, each with the requestId its
closure captured), the single `pollingIntervalRef`, the outstanding
status-check requests, and the React state the handlers write. -/

structure UiState where
  nextIntervalId : Nat
  intervals : List (Nat × String)
  pollingRef : Option Nat
  inflight : List String
  forecastData : Option ForecastResponseV2
  showForecast : Bool
  forecastLoading : Bool
  pollingStatus : String
  errorMsg : Option String
deriving DecidableEq, Repr

def initialUiState : UiState :=
  { nextIntervalId := 0
    intervals := []
    pollingRef := none
    inflight := []
    forecastData := none
    showForecast := false
    forecastLoading := false
    pollingStatus := ""
    errorMsg := none }

/-- stopPolling: if the ref holds an interval id, clearInterval it (the
timer is deregistered) and null the ref; otherwise do nothing.  Intervals
whose id the ref no longer holds are untouched. -/
def stopPolling (s : UiState) : UiState :=
  match s.pollingRef with
  | some id =>
      { s with intervals := s.intervals.filter (fun p => p.fst ≠ id), pollingRef := none }
  | none => s

/-- The synchronous start of checkForecastStatus: the POST to
check-forecast-request goes out and is now outstanding. -/
def sendCheck (requestId : String) (s : UiState) : UiState :=
  { s with inflight := requestId :: s.inflight }

/-- What one outstanding status check comes back with: a resolved
response with a code and a body, or a transport failure. -/
inductive PollOutcome where
  | ok (status : Nat) (body : ForecastResponseV2)
  | transportError
deriving DecidableEq, Repr

/-- The continuation of checkForecastStatus once the awaited response for
an outstanding check arrives: 200 stops polling and publishes the data,
202 only updates the status text, any other resolved code matches
neither branch, and a rejection stops polling and records the error. -/
def handleCheckResponse (requestId : String) (o : PollOutcome) (s : UiState) : UiState :=
  if requestId ∈ s.inflight then
    let s1 := { s with inflight := s.inflight.erase requestId }
    match o with
    | .ok st body =>
        if st == 200 then
          let s2 := stopPolling s1
          { s2 with forecastLoading := true
                    pollingStatus := "Forecast data received!"
                    forecastData := some body
                    showForecast := true }
        else if st == 202 then
          { s1 with pollingStatus := "Processing forecast..." }
        else s1
    | .transportError =>
        let s2 := stopPolling s1
        { s2 with errorMsg := some "Failed to check forecast status"
                  forecastLoading := false }
  else s

/-- startPolling: set the status text, poll immediately, then register a
fresh 5-second interval and point the ref at it.  The previous value of
the ref is overwritten without any clearInterval. -/
def startPolling (requestId : String) (s : UiState) : UiState :=
  let s1 := { s with pollingStatus := "Checking forecast status..." }
  let s2 := sendCheck requestId s1
  { s2 with intervals := (s2.nextIntervalId, requestId) :: s2.intervals
            pollingRef := some s2.nextIntervalId
            nextIntervalId := s2.nextIntervalId + 1 }

/-- The success path of handleRequestForecast: reset the forecast state,
then startPolling with the requestId the submission returned.  No
stopPolling call appears on this path in the source. -/
def handleRequestForecastSuccess (requestId : String) (s : UiState) : UiState :=
  let s1 := { s with forecastLoading := false
                     forecastData := none
                     errorMsg := none
                     pollingStatus := "Requesting forecast..." }
  startPolling requestId s1

/-- The requestId a live interval id maps to, if the timer is registered. -/
def lookupInterval (id : Nat) (l : List (Nat × String)) : Option String :=
  match l.find? (fun p => p.fst == id) with
  | some p => some p.snd
  | none => none

/-- The events the coordinator reacts to: a submission that resolved with
a requestId, an explicit cancellation (stopPolling), a registered
interval firing, and the arrival of the response to an outstanding
status check. -/
inductive UiEvent where
  | submit (requestId : String)
  | cancel
  | intervalFires (id : Nat)
  | response (requestId : String) (o : PollOutcome)
deriving DecidableEq, Repr

def uiStep (e : UiEvent) (s : UiState) : UiState :=
  match e with
  | .submit rid => handleRequestForecastSuccess rid s
  | .cancel => stopPolling s
  | .intervalFires id =>
      match lookupInterval id s.intervals with
      | some rid => sendCheck rid s
      | none => s
  | .response rid o => handleCheckResponse rid o s

def uiRun (events : List UiEvent) (s : UiState) : UiState :=
  events.foldl (fun st e => uiStep e st) s

/-! ### The timing of the checks -/

/-- The fixed polling period of startPolling, in milliseconds. -/
def POLL_INTERVAL_MS : Nat := 5000

/-- The instants at which startPolling running at `start` issues its
status checks under JS timer semantics: check 0 is the immediate call,
check n + 1 the nth firing of the interval registered at `start` with
period `POLL_INTERVAL_MS`. -/
def checkIssueTime (start : Nat) : Nat → Nat
  | 0 => start
  | n + 1 => start + POLL_INTERVAL_MS * (n + 1)

/-! ### Theorems -/

/-- A body whose longitude is out of range but that the schema accepts. -/
def outOfRangeBody : ReqBody :=
  { long := some (.num 200)
    lat := some (.num 0)
    date := some (.str "2025-10-06T15:00:00Z") }

/-- C1, counterexample: the body with longitude 200 fails the range
invariant of the specification, yet the route does not answer 400 (it
answers 202): an out-of-range longitude is not rejected, so rejection is
not equivalent to the stated invariants. -/
theorem C1_range_check_counterexample :
    specRangeInvariantOk outOfRangeBody = false ∧
    (requestForecastRoute outOfRangeBody).status = 202 ∧
    (requestForecastRoute outOfRangeBody).status ≠ 400 := by
  refine ⟨by decide, by decide, by decide⟩

/-- C1, amended: the body is rejected with 400 (before any downstream
call) exactly when it fails the zod schema: long a number, lat a number,
date coercible to a valid instant.  The coordinate ranges are not
checked anywhere. -/
theorem C1_reject_iff_schema_fails (b : ReqBody) :
    (requestForecastRoute b).status = 400 ↔ requestForecastRequestCheck b = false := by
  unfold requestForecastRoute requestForecast
  cases h : requestForecastRequestCheck b <;> simp [h]

/-- The valid body of the end-to-end scenario in the specification. -/
def validBody : ReqBody :=
  { long := some (.num (-105.25))
    lat := some (.num (54.53))
    date := some (.str "2025-10-06T15:00:00Z") }

/-- C4: every body with numeric long in [-180, 180], numeric lat in
[-90, 90] and a date that coerces to a valid instant gets a 202 answer
carrying a non-empty requestId. -/
theorem C4_valid_request_accepted (b : ReqBody) (lq la : ℚ) (d : JsVal)
    (hlong : b.long = some (.num lq)) (hlr : -180 ≤ lq ∧ lq ≤ 180)
    (hlat : b.lat = some (.num la)) (har : -90 ≤ la ∧ la ≤ 90)
    (hdate : b.date = some d) (hd : jsDateCoercionOk d = true) :
    (requestForecastRoute b).status = 202 ∧
    ∃ rid msg, (requestForecastRoute b).body = .accepted rid msg ∧ rid ≠ "" := by
  have hcheck : requestForecastRequestCheck b = true := by
    simp [requestForecastRequestCheck, fieldVal, hlong, hlat, hdate, zNumberOk, hd]
  refine ⟨by simp [requestForecastRoute, hcheck, requestForecast], ?_⟩
  exact ⟨"12345", "Forecast request received. Use this ID to check status.",
    by simp [requestForecastRoute, hcheck, requestForecast], by decide⟩

/-- C4, witness: the scenario body of the specification is accepted with
the non-empty requestId. -/
theorem C4_valid_request_accepted_witness :
    (requestForecastRoute validBody).status = 202 ∧
    ∃ rid msg, (requestForecastRoute validBody).body = .accepted rid msg ∧ rid ≠ "" :=
  C4_valid_request_accepted validBody (-105.25) 54.53 (.str "2025-10-06T15:00:00Z")
    rfl ⟨by norm_num, by norm_num⟩ rfl ⟨by norm_num, by norm_num⟩ rfl (by decide)

/-- C5, counterexample: the resolved code 204 is classified by the
specification as Failed, but the code derives no status from it at all
(both branches are skipped): the classification is not total. -/
theorem C5_status_classification_counterexample :
    deriveJobStatus 204 = none ∧ specJobStatusOfCode 204 = .Failed := by
  refine ⟨by decide, by decide⟩

/-- C5, amended: a resolved 200 is Ready, a resolved 202 is Pending, a
rejected (non-2xx) code is Failed, and every other resolved 2xx code is
left unclassified (the handler takes no branch for it). -/
theorem C5_status_classification (status : Nat) :
    (status = 200 → deriveJobStatus status = some .Ready) ∧
    (status = 202 → deriveJobStatus status = some .Pending) ∧
    (axiosResolves status = false → deriveJobStatus status = some .Failed) ∧
    (axiosResolves status = true → status ≠ 200 → status ≠ 202 →
      deriveJobStatus status = none) := by
  refine ⟨?_, ?_, ?_, ?_⟩
  · rintro rfl; decide
  · rintro rfl; decide
  · intro h; simp [deriveJobStatus, h]
  · intro h h200 h202
    simp [deriveJobStatus, h, h200, h202]

/-- The mock response body the gateway publishes when finished. -/
def mockForecastV2 : ForecastResponseV2 :=
  createForecastResponseV2 mockCurrent mockForecastList

/-- C2, counterexample: submit for handle A, then submit for handle B
while the first session is polling.  The interval of session A is still
registered afterwards and still issues a status check for A when it
fires, so the prior session was not cancelled; and in a single session,
one interval firing before the first response arrives leaves two checks
for the same handle outstanding at once. -/
theorem C2_single_flight_counterexample :
    lookupInterval 0 (uiRun [.submit "A", .submit "B"] initialUiState).intervals = some "A" ∧
    "A" ∈ (uiRun [.submit "A", .submit "B", .intervalFires 0] initialUiState).inflight ∧
    (uiRun [.submit "A", .intervalFires 0] initialUiState).inflight = ["A", "A"] := by
  refine ⟨by decide, by decide, by decide⟩

/-- C2, amended: a new submission does not cancel the prior session: it
registers a fresh interval while every previously registered interval
stays live, and repoints the single handle at the new interval, losing
the old one.  At most the newest interval can therefore ever be
stopped. -/
theorem C2_submission_keeps_old_intervals (s : UiState) (rid : String) :
    (uiStep (.submit rid) s).intervals = (s.nextIntervalId, rid) :: s.intervals ∧
    (uiStep (.submit rid) s).pollingRef = some s.nextIntervalId := by
  refine ⟨rfl, rfl⟩

/-- C3, counterexample: submit for handle A (the immediate check goes
out), cancel, then the response to the already outstanding check arrives
with 200.  The cancelled session still publishes the forecast data and
transitions to Done: a status result for a cancelled session is observed
after cancellation returned. -/
theorem C3_cancellation_counterexample :
    (uiRun [.submit "A", .cancel, .response "A" (.ok 200 mockForecastV2)]
        initialUiState).showForecast = true ∧
    (uiRun [.submit "A", .cancel, .response "A" (.ok 200 mockForecastV2)]
        initialUiState).forecastData = some mockForecastV2 := by
  refine ⟨by decide, ?_⟩
  rfl

/-- Helper: clearing every entry of an id from the registry makes its
lookup fail. -/
theorem lookupInterval_filter_ne (id : Nat) (l : List (Nat × String)) :
    lookupInterval id (l.filter (fun p => p.fst ≠ id)) = none := by
  have hfind : (l.filter (fun p => p.fst ≠ id)).find? (fun p => p.fst == id) = none := by
    rw [List.find?_eq_none]
    intro x hx
    have hne := (List.mem_filter.mp hx).2
    simp only [decide_eq_true_eq] at hne
    simpa using hne
  unfold lookupInterval
  rw [hfind]

/-- C3, amended: cancellation synchronously deregisters the interval the
handle points at, so that interval can never fire a check again (its
firing is a no-op after stopPolling returns); but a check already in
flight is not cancelled, and its response is still processed. -/
theorem C3_cancel_stops_referenced_interval (s : UiState) (id : Nat)
    (h : s.pollingRef = some id) :
    lookupInterval id (uiStep .cancel s).intervals = none ∧
    uiStep (.intervalFires id) (uiStep .cancel s) = uiStep .cancel s := by
  have hstop : uiStep .cancel s =
      { s with intervals := s.intervals.filter (fun p => p.fst ≠ id), pollingRef := none } := by
    simp [uiStep, stopPolling, h]
  have hlook : lookupInterval id (uiStep .cancel s).intervals = none := by
    rw [hstop]
    exact lookupInterval_filter_ne id s.intervals
  refine ⟨hlook, ?_⟩
  show (match lookupInterval id (uiStep .cancel s).intervals with
        | some rid => sendCheck rid (uiStep .cancel s)
        | none => uiStep .cancel s) = uiStep .cancel s
  rw [hlook]

/-- C3, witness for the amended theorem: after one submission the handle
points at interval 0; cancelling deregisters it and its firing changes
nothing. -/
theorem C3_cancel_stops_referenced_interval_witness :
    lookupInterval 0 (uiStep .cancel (uiStep (.submit "A") initialUiState)).intervals = none ∧
    uiStep (.intervalFires 0) (uiStep .cancel (uiStep (.submit "A") initialUiState)) =
      uiStep .cancel (uiStep (.submit "A") initialUiState) :=
  C3_cancel_stops_referenced_interval (uiStep (.submit "A") initialUiState) 0 rfl

/-- C7: the first status check of a session started at `start` is issued
at `start` itself (zero delay), every two consecutive checks are exactly
POLL_INTERVAL_MS apart, and a terminal response (a 200 or a transport
failure) for the single live session deregisters its interval, so no
further check is scheduled. -/
theorem C7_poll_schedule (start n : Nat) (s : UiState) (id : Nat) (rid : String)
    (body : ForecastResponseV2) (href : s.pollingRef = some id)
    (hint : s.intervals = [(id, rid)]) (hin : rid ∈ s.inflight) :
    checkIssueTime start 0 = start ∧
    checkIssueTime start (n + 1) = checkIssueTime start n + POLL_INTERVAL_MS ∧
    (handleCheckResponse rid (.ok 200 body) s).intervals = [] ∧
    (handleCheckResponse rid .transportError s).intervals = [] := by
  refine ⟨rfl, ?_, ?_, ?_⟩
  · cases n with
    | zero => simp [checkIssueTime]
    | succ m => simp [checkIssueTime]; ring
  · simp only [handleCheckResponse, hin, if_pos, stopPolling]
    simp [href, hint]
  · simp only [handleCheckResponse, hin, if_pos, stopPolling]
    simp [href, hint]

/-- C7, witness: the session created by one submission, with its check
outstanding, at start instant 0. -/
theorem C7_poll_schedule_witness :
    checkIssueTime 0 0 = 0 ∧
    checkIssueTime 0 (0 + 1) = checkIssueTime 0 0 + POLL_INTERVAL_MS ∧
    (handleCheckResponse "A" (.ok 200 mockForecastV2)
        (uiStep (.submit "A") initialUiState)).intervals = [] ∧
    (handleCheckResponse "A" .transportError
        (uiStep (.submit "A") initialUiState)).intervals = [] :=
  C7_poll_schedule 0 0 (uiStep (.submit "A") initialUiState) 0 "A" mockForecastV2
    rfl rfl (by decide)

/-- A raw forecast point with a datetime but no aqi (and no category). -/
def pointMissingAqi : RawReading :=
  { datetime := some (.str "2025-10-08T15:00:00Z") }

/-- C6, counterexample: a forecast point missing aqi is not dropped (the
output still has one point) and its absent category is not defaulted to
the string unknown (it stays absent), against both halves of the claim. -/
theorem C6_result_model_counterexample :
    (createForecastResponse mockCurrent [pointMissingAqi]).forecast.length = 1 ∧
    (createForecastResponse mockCurrent [pointMissingAqi]).forecast.map
        (fun p => p.category) = [none] ∧
    (createForecastResponse mockCurrent [pointMissingAqi]).forecast.map
        (fun p => p.aqi) = [none] := by
  refine ⟨rfl, rfl, rfl⟩

/-- C6, amended: the transformation is total but neither defaults nor
drops: it keeps every forecast point (also those missing aqi or
datetime), copies datetime, aqi and category of each point verbatim
(absent stays absent, no unknown substituted), copies the current
category verbatim, and records no warning anywhere. -/
theorem C6_result_model_copies_verbatim (current : RawReading)
    (forecastList : List RawReading) :
    (createForecastResponse current forecastList).forecast.length = forecastList.length ∧
    (createForecastResponse current forecastList).forecast.map (fun p => p.datetime) =
      forecastList.map (fun r => r.datetime) ∧
    (createForecastResponse current forecastList).forecast.map (fun p => p.aqi) =
      forecastList.map (fun r => r.aqi) ∧
    (createForecastResponse current forecastList).forecast.map (fun p => p.category) =
      forecastList.map (fun r => r.category) ∧
    (createForecastResponse current forecastList).current_conditions.category =
      current.category := by
  refine ⟨?_, ?_, ?_, ?_, rfl⟩ <;>
    simp [createForecastResponse, List.map_map, Function.comp]

/-- C8, counterexample: with a malformed requestId (a garbage string, or
the field absent entirely) the claim demands a 500 answer; the handler
answers 200 with the mock result instead. -/
theorem C8_check_route_counterexample :
    (checkForecastRequest (some (.str "no-such-job"))).status = 200 ∧
    (checkForecastRequest (some (.str "no-such-job"))).status ≠ 500 ∧
    (checkForecastRequest none).status ≠ 500 := by
  refine ⟨rfl, by decide, by decide⟩

/-- C8, amended: the handler never consults the downstream service or
the requestId: with the completion flag hard-coded true, every call
answers 200 with the fixed mock ForecastResult, built field-by-field by
the slim createForecastResponse (so the 200 body is indeed a
reconstruction, never a passthrough); the 202 and 500 branches are
unreachable. -/
theorem C8_check_route_always_mock (requestId : Option JsVal) :
    checkForecastRequest requestId =
      { status := 200
        body := .forecastV2 (createForecastResponseV2 mockCurrent mockForecastList) } := rfl

/-- C9: idempotence per handle holds, degenerately: the pending clause is
vacuous because the handler never answers 202 (its completion flag is
hard-coded true), and once a call answers 200 every later call with any
body answers the identical response, so the returned ForecastResult is
stable across repeated identical calls. -/
theorem C9_check_route_idempotent (r r' : Option JsVal) :
    (checkForecastRequest r).status = 200 ∧
    (checkForecastRequest r).status ≠ 202 ∧
    ((checkForecastRequest r).status = 200 →
      checkForecastRequest r' = checkForecastRequest r) := by
  refine ⟨rfl, by simp [checkForecastRequest, checkFinished], fun _ => rfl⟩

/-- C10: the answer of check-forecast-request is independent of the body:
any two calls, whatever their requestId values and whether the field is
present at all, produce the identical status code and body. -/
theorem C10_check_route_body_independent (r1 r2 : Option JsVal) :
    checkForecastRequest r1 = checkForecastRequest r2 := rfl

end Hackathon
